import Mathlib

/-!
Shallow embedding of the single-page chat client in `src/App.jsx`.

The component state (React `useState` hooks) becomes the record `AppState`;
the browser's local storage (single key `chatUserName`) becomes `Storage`;
the runtime-injected globals become `Env`.  Each event handler of the source
(`initializeFirebase`, the `onSnapshot` success and error callbacks, the
`onAuthStateChanged` callbacks, `handleSendMessage`, `handleUserNameChange`)
is embedded as a pure state-transition function, and the JSX render is
embedded as a function from `AppState` to an abstract `View`.  Asynchronous
event delivery is the relation `Step`.
-/

/-- Value of the `timestamp` field of a record written by `addDoc`: either the
`serverTimestamp()` sentinel (resolved by the backend) or a concrete
client-clock milliseconds value.  The source only ever writes `server`. -/
inductive TimestampField where
  | server : TimestampField
  | client : Int → TimestampField
deriving DecidableEq, Repr

/-- A message record as read from a feed snapshot (`{ id: doc.id, ...doc.data() }`).
The `timestamp` field holds the `toMillis()` value when the server timestamp is
present, and `none` for an in-flight write whose timestamp is still pending. -/
structure Message where
  id : String
  senderId : String
  senderName : Option String
  text : String
  timestamp : Option Int
deriving DecidableEq, Repr

/-- The record appended by `addDoc` in `handleSendMessage` (src/App.jsx 121-126). -/
structure WriteRecord where
  senderId : String
  senderName : String
  text : String
  timestamp : TimestampField
deriving DecidableEq, Repr

/-- Models JavaScript `String.prototype.trim`: strips leading and trailing
whitespace characters (used in the guard `newMessage.trim() === ''`,
src/App.jsx 115). -/
def jsTrim (s : String) : String :=
  String.mk ((s.data.dropWhile Char.isWhitespace).reverse.dropWhile Char.isWhitespace).reverse

/-- JavaScript truthiness of a nullable string: `null` and the empty string are
falsy, every other string is truthy.  Models guards such as `!userId` and
`!userName` (src/App.jsx 115) and `if (storedUserName)` (src/App.jsx 42). -/
def jsTruthy : Option String → Bool
  | none => false
  | some s => !(s == "")

/-- Models the JavaScript expression `o || d` on a nullable string `o`:
returns `d` when `o` is null or empty, else the string itself
(used at src/App.jsx 203 for `msg.senderName || msg.senderId` and at 173 for
`userName || ''`). -/
def jsOr (o : Option String) (d : String) : String :=
  match o with
  | some s => if s = "" then d else s
  | none => d

/-- The React component state of `App`: one field per `useState` hook
(src/App.jsx 12-19).  The `db` and `auth` handles are abstracted to the single
bit that the code ever branches on, namely whether the handle is non-null. -/
structure AppState where
  messages : List Message
  newMessage : String
  userId : Option String
  userName : Option String
  db : Bool
  auth : Bool
  loading : Bool
  error : Option String
deriving DecidableEq, Repr

/-- The browser local storage as seen by the app: the single key
`chatUserName`, absent (`none`) or holding a string. -/
abbrev Storage := Option String

/-- Runtime-injected globals of the hosting environment (src/App.jsx 7-9).
The parsed firebase config blob is abstracted to its list of object keys,
which is all the code inspects (`Object.keys(firebaseConfig).length`);
`none` models an undefined `__firebase_config` global. -/
structure Env where
  appId : Option String
  firebaseConfig : Option (List String)
  initialAuthToken : Option String
deriving DecidableEq, Repr

/-- The initial hook values of the component (src/App.jsx 12-19). -/
def initialState : AppState :=
  { messages := [], newMessage := "", userId := none, userName := none,
    db := false, auth := false, loading := true, error := none }

/-- Loading of the display name during bootstrap (src/App.jsx 41-47):
a stored truthy name wins, otherwise a pseudo-random default
`User-<suffix>` is produced; the random suffix is passed in as a parameter. -/
def loadUserName (storage : Storage) (suffix : String) : String :=
  match storage with
  | some stored => if stored = "" then "User-" ++ suffix else stored
  | none => "User-" ++ suffix

/-- The bootstrap `initializeFirebase` (src/App.jsx 24-76) up to the point
where the auth callback is registered.  An absent or empty config blob throws
before any handle or name is set, and the catch block records the error and
clears `loading`.  On the success path the handles are set, the display name is
loaded, and `loading` stays `true` until an auth callback fires.  Local storage
is returned unchanged: this code path contains no `localStorage.setItem`. -/
def initializeFirebase (env : Env) (storage : Storage) (suffix : String) :
    AppState × Storage :=
  let configKeys := match env.firebaseConfig with
    | some keys => keys
    | none => []
  if configKeys.length = 0 then
    ({ initialState with
        error := some "Failed to initialize Firebase: Firebase config not provided.",
        loading := false }, storage)
  else
    ({ initialState with
        db := true, auth := true,
        userName := some (loadUserName storage suffix) }, storage)

/-- Sort key used by the snapshot callback:
`a.timestamp?.toMillis() || 0` (src/App.jsx 96) — a missing timestamp
contributes `0`, not a minimal value. -/
def sortKey (m : Message) : Int :=
  match m.timestamp with
  | some t => t
  | none => 0

/-- The in-memory sort of the snapshot (src/App.jsx 96):
`fetchedMessages.sort((a, b) => (a.timestamp?.toMillis() || 0) - (b.timestamp?.toMillis() || 0))`.
JavaScript `Array.prototype.sort` with a numeric comparator is a stable sort
ascending by the key, modelled by `List.mergeSort`. -/
def sortMessages (docs : List Message) : List Message :=
  docs.mergeSort (fun a b => sortKey a ≤ sortKey b)

/-- The `onSnapshot` success callback (src/App.jsx 90-97): publishes the
sorted snapshot to the view. -/
def onSnapshotOk (s : AppState) (docs : List Message) : AppState :=
  { s with messages := sortMessages docs }

/-- The `onSnapshot` error callback (src/App.jsx 98-101): records a feed
error; no other field changes. -/
def onSnapshotError (s : AppState) (msg : String) : AppState :=
  { s with error := some ("Failed to fetch messages: " ++ msg) }

/-- The `onAuthStateChanged` callback with a user present (src/App.jsx 51-53):
publishes the session identity and ends loading. -/
def onAuthUser (s : AppState) (uid : String) : AppState :=
  { s with userId := some uid, loading := false }

/-- The catch branch of the sign-in attempt (src/App.jsx 62-66). -/
def onAuthFailure (s : AppState) (msg : String) : AppState :=
  { s with error := some ("Authentication failed: " ++ msg), loading := false }

/-- Outcome of the asynchronous `addDoc` call: resolved, or rejected with an
error message. -/
inductive SendOutcome where
  | success : SendOutcome
  | failure : String → SendOutcome
deriving DecidableEq, Repr

/-- Result of a send attempt: the new component state together with the list
of records that were accepted by the backend during the attempt. -/
structure SendResult where
  state : AppState
  writes : List WriteRecord
deriving DecidableEq, Repr

/-- The submit handler `handleSendMessage` (src/App.jsx 113-132).  The guard
`newMessage.trim() === '' || !db || !userId || !userName` makes the handler
return without any effect.  Otherwise `addDoc` appends one record tagged with
the server-timestamp sentinel; on resolution the input field is cleared, on
rejection the error state is set and the input field is left as it was. -/
def handleSendMessage (s : AppState) (outcome : SendOutcome) : SendResult :=
  if jsTrim s.newMessage = "" ∨ s.db = false ∨ jsTruthy s.userId = false
      ∨ jsTruthy s.userName = false then
    { state := s, writes := [] }
  else
    match outcome with
    | .success =>
        { state := { s with newMessage := "" },
          writes := [{ senderId := (s.userId).getD "",
                       senderName := (s.userName).getD "",
                       text := s.newMessage,
                       timestamp := .server }] }
    | .failure msg =>
        { state := { s with error := some ("Failed to send message: " ++ msg) },
          writes := [] }

/-- The name-input handler `handleUserNameChange` (src/App.jsx 135-139):
updates the in-memory name and synchronously overwrites the `chatUserName`
key in local storage, with no validation. -/
def handleUserNameChange (s : AppState) (storage : Storage) (newName : String) :
    AppState × Storage :=
  ({ s with userName := some newName }, some newName)

/-- Horizontal placement of a rendered message bubble (src/App.jsx 193). -/
inductive Align where
  | left : Align
  | right : Align
deriving DecidableEq, Repr

/-- The rendered form of one message bubble (src/App.jsx 190-211). -/
structure MessageView where
  align : Align
  label : String
  text : String
deriving DecidableEq, Repr

/-- Rendering of a single message (src/App.jsx 190-211): own messages
(`msg.senderId === userId`) are right-aligned and labelled "You"; all others
are left-aligned and labelled `msg.senderName || msg.senderId`. -/
def renderMessage (uid : Option String) (m : Message) : MessageView :=
  if some m.senderId = uid then
    { align := .right, label := "You", text := m.text }
  else
    { align := .left, label := jsOr m.senderName m.senderId, text := m.text }

/-- The three mutually exclusive top-level screens of the component
(src/App.jsx 141-236). -/
inductive View where
  | loadingScreen : View
  | errorScreen : String → View
  | chat : List MessageView → Option String → String → View
deriving DecidableEq, Repr

/-- The top-level render of `App` (src/App.jsx 141-236): the loading screen
while `loading` is set, the full-screen error display while `error` is set,
otherwise the chat view carrying the rendered message list, the viewer's
identity/user-id and the name-input value `userName || ''`. -/
def render (s : AppState) : View :=
  if s.loading then .loadingScreen
  else
    match s.error with
    | some e => .errorScreen e
    | none => .chat (s.messages.map (renderMessage s.userId)) s.userId (jsOr s.userName "")

/-- The ready state of the spec: the chat view is shown, neither the loading
screen nor the error screen. -/
def ready (s : AppState) : Prop := s.loading = false ∧ s.error = none

/-- One asynchronous event delivered to the mounted component.  Auth
callbacks require the auth handle (the listener at src/App.jsx 50 exists only
after a successful bootstrap); feed callbacks require the snapshot listener,
which exists only when `db` and `userId` are present (src/App.jsx 83);
send, name edits and typing are user events on the rendered form. -/
inductive Step : AppState → AppState → Prop where
  | authUser (s : AppState) (uid : String) (h : s.auth = true) :
      Step s (onAuthUser s uid)
  | authFailure (s : AppState) (msg : String) (h : s.auth = true) :
      Step s (onAuthFailure s msg)
  | snapshotOk (s : AppState) (docs : List Message) (hdb : s.db = true)
      (hu : s.userId.isSome = true) : Step s (onSnapshotOk s docs)
  | snapshotError (s : AppState) (msg : String) (hdb : s.db = true)
      (hu : s.userId.isSome = true) : Step s (onSnapshotError s msg)
  | send (s : AppState) (o : SendOutcome) : Step s (handleSendMessage s o).state
  | nameChange (s : AppState) (st : Storage) (n : String) :
      Step s (handleUserNameChange s st n).1
  | inputChange (s : AppState) (t : String) :
      Step s { s with newMessage := t }

/-- The published list never places a record lacking a timestamp after a
record that has one (the ordering property claimed of the feed). -/
def missingTimestampFirst (l : List Message) : Prop :=
  List.Pairwise (fun a b => a.timestamp.isSome = true → b.timestamp.isSome = true) l

/-- The published list is sorted ascending by the snapshot comparator's key. -/
def sortedByKey (l : List Message) : Prop :=
  List.Pairwise (fun a b => sortKey a ≤ sortKey b) l

theorem step_error_isSome {s s2 : AppState} (h : Step s s2)
    (he : s.error.isSome = true) : s2.error.isSome = true := by
  cases h with
  | authUser uid ha => simpa [onAuthUser] using he
  | authFailure m ha => simp [onAuthFailure]
  | snapshotOk docs h1 h2 => simpa [onSnapshotOk] using he
  | snapshotError m h1 h2 => simp [onSnapshotError]
  | send o =>
      unfold handleSendMessage
      split
      · exact he
      · cases o with
        | success => simpa using he
        | failure m => simp
  | nameChange st n => simpa [handleUserNameChange] using he
  | inputChange t => simpa using he

theorem step_loading_false {s s2 : AppState} (h : Step s s2)
    (hl : s.loading = false) : s2.loading = false := by
  cases h with
  | authUser uid ha => simp [onAuthUser]
  | authFailure m ha => simp [onAuthFailure]
  | snapshotOk docs h1 h2 => simpa [onSnapshotOk] using hl
  | snapshotError m h1 h2 => simpa [onSnapshotError] using hl
  | send o =>
      unfold handleSendMessage
      split
      · exact hl
      · cases o with
        | success => simpa using hl
        | failure m => simpa using hl
  | nameChange st n => simpa [handleUserNameChange] using hl
  | inputChange t => simpa using hl

theorem reachable_error_isSome {s0 s : AppState}
    (h : Relation.ReflTransGen Step s0 s) (he : s0.error.isSome = true) :
    s.error.isSome = true := by
  induction h with
  | refl => exact he
  | tail _ hstep ih => exact step_error_isSome hstep ih

theorem reachable_loading_false {s0 s : AppState}
    (h : Relation.ReflTransGen Step s0 s) (hl : s0.loading = false) :
    s.loading = false := by
  induction h with
  | refl => exact hl
  | tail _ hstep ih => exact step_loading_false hstep ih

/-- A concrete state ready to send: text typed, handle, identity and name
all present. -/
def sendReadyState : AppState :=
  { messages := [], newMessage := "hello", userId := some "u1",
    userName := some "Bob", db := true, auth := true, loading := false,
    error := none }

/-- C2: send is a no-op — no accepted write and the whole state, in
particular the input field, unchanged — whenever the trimmed text is empty or
the backend handle, the session identity, or the display name is
unavailable. -/
theorem C2_send_noop (s : AppState) (o : SendOutcome)
    (h : jsTrim s.newMessage = "" ∨ s.db = false ∨ s.userId = none ∨ s.userName = none) :
    handleSendMessage s o = { state := s, writes := [] } := by
  unfold handleSendMessage
  rw [if_pos]
  rcases h with h | h | h | h
  · exact Or.inl h
  · exact Or.inr (Or.inl h)
  · exact Or.inr (Or.inr (Or.inl (by simp [jsTruthy, h])))
  · exact Or.inr (Or.inr (Or.inr (by simp [jsTruthy, h])))

/-- Witness for C2 at the freshly mounted component, whose backend handle is
still absent. -/
theorem C2_send_noop_witness :
    handleSendMessage initialState .success = { state := initialState, writes := [] } :=
  C2_send_noop initialState .success (Or.inr (Or.inl rfl))

/-- C3: with non-empty trimmed text and backend handle, session identity and
display name available, a successful send appends exactly one record carrying
the sender identity, the sender name, the text and the server-timestamp
sentinel (never a client clock value), and afterwards the input field is
empty. -/
theorem C3_send_success (s : AppState) (uid un : String)
    (ht : ¬ jsTrim s.newMessage = "") (hdb : s.db = true)
    (hu : s.userId = some uid) (hu2 : ¬ uid = "")
    (hn : s.userName = some un) (hn2 : ¬ un = "") :
    handleSendMessage s .success =
      { state := { s with newMessage := "" },
        writes := [{ senderId := uid, senderName := un,
                     text := s.newMessage, timestamp := .server }] } := by
  unfold handleSendMessage
  rw [if_neg]
  · simp [hu, hn]
  · simp [ht, hdb, hu, hn, jsTruthy, hu2, hn2]

/-- Witness for C3 at the concrete sendable state. -/
theorem C3_send_success_witness :
    handleSendMessage sendReadyState .success =
      { state := { sendReadyState with newMessage := "" },
        writes := [{ senderId := "u1", senderName := "Bob",
                     text := "hello", timestamp := .server }] } :=
  C3_send_success sendReadyState "u1" "Bob" (by decide) rfl rfl (by decide) rfl (by decide)

/-- C5 counterexample: a failed send at a concrete sendable state publishes
the error, yet the typed text remains in the input field — contradicting the
claim that the failed text does not remain there. -/
theorem C5_counterexample :
    (handleSendMessage sendReadyState (.failure "net")).state.newMessage = "hello"
    ∧ (handleSendMessage sendReadyState (.failure "net")).state.error =
        some "Failed to send message: net"
    ∧ (handleSendMessage sendReadyState (.failure "net")).writes = [] := by
  refine ⟨?_, ?_, ?_⟩ <;> decide

/-- C5, amended: when a send with non-empty trimmed text and available
handle, identity and name fails, the error is published and no record is
appended, but the input field retains the failed text (it is neither cleared
nor modified; there is no retry or requeue). -/
theorem C5_send_failure (s : AppState) (uid un m : String)
    (ht : ¬ jsTrim s.newMessage = "") (hdb : s.db = true)
    (hu : s.userId = some uid) (hu2 : ¬ uid = "")
    (hn : s.userName = some un) (hn2 : ¬ un = "") :
    handleSendMessage s (.failure m) =
      { state := { s with error := some ("Failed to send message: " ++ m) },
        writes := [] } := by
  unfold handleSendMessage
  rw [if_neg]
  simp [ht, hdb, hu, hn, jsTruthy, hu2, hn2]

/-- Witness for the amended C5 at the concrete sendable state. -/
theorem C5_send_failure_witness :
    handleSendMessage sendReadyState (.failure "net") =
      { state := { sendReadyState with error := some "Failed to send message: net" },
        writes := [] } :=
  C5_send_failure sendReadyState "u1" "Bob" "net" (by decide) rfl rfl (by decide) rfl (by decide)

/-- A concrete environment with a non-empty config blob. -/
def envOk : Env :=
  { appId := some "app-1", firebaseConfig := some ["apiKey"],
    initialAuthToken := none }

/-- C7 counterexample: setting the display name to the empty string persists
the empty string, but the next bootstrap load produces a generated default
rather than the previously set (empty) name, so the set/load round-trip fails
for that name. -/
theorem C7_counterexample :
    (handleUserNameChange initialState none "").2 = some ""
    ∧ (initializeFirebase envOk (handleUserNameChange initialState none "").2 "k3x9q").1.userName
        = some "User-k3x9q"
    ∧ ¬ ((some "User-k3x9q" : Option String) = some "") := by
  refine ⟨rfl, ?_, by decide⟩
  simp [initializeFirebase, envOk, handleUserNameChange, loadUserName]

/-- C7, amended: `set(name)` always writes the name synchronously to local
storage, and for every non-empty name a subsequent bootstrap load returns the
stored name, not a generated default.  (The empty string is stored but read
back as absent, yielding a fresh default — see C10.) -/
theorem C7_set_load_roundtrip (s : AppState) (storage : Storage)
    (name suffix : String) (env : Env) (k : String) (ks : List String)
    (hcfg : env.firebaseConfig = some (k :: ks)) (hname : ¬ name = "") :
    (handleUserNameChange s storage name).2 = some name
    ∧ (initializeFirebase env (handleUserNameChange s storage name).2 suffix).1.userName
        = some name := by
  refine ⟨rfl, ?_⟩
  simp [initializeFirebase, hcfg, handleUserNameChange, loadUserName, hname]

/-- Witness for the amended C7 with the concrete name Alice. -/
theorem C7_set_load_roundtrip_witness :
    (handleUserNameChange initialState none "Alice").2 = some "Alice"
    ∧ (initializeFirebase envOk (handleUserNameChange initialState none "Alice").2 "k3x9q").1.userName
        = some "Alice" :=
  C7_set_load_roundtrip initialState none "Alice" "k3x9q" envOk "apiKey" [] rfl (by decide)

/-- C9: with no stored display name, a bootstrap with a non-empty config blob
sets the generated default `User-<suffix>` as the in-memory name and leaves
local storage unchanged — nothing is persisted by the load. -/
theorem C9_load_generates_default (env : Env) (suffix : String)
    (k : String) (ks : List String) (hcfg : env.firebaseConfig = some (k :: ks)) :
    (initializeFirebase env none suffix).1.userName = some ("User-" ++ suffix)
    ∧ (initializeFirebase env none suffix).2 = none := by
  constructor
  · simp [initializeFirebase, hcfg, loadUserName]
  · unfold initializeFirebase
    dsimp only
    split <;> rfl

/-- Witness for C9 with the concrete environment and suffix. -/
theorem C9_load_generates_default_witness :
    (initializeFirebase envOk none "k3x9q").1.userName = some ("User-" ++ "k3x9q")
    ∧ (initializeFirebase envOk none "k3x9q").2 = none :=
  C9_load_generates_default envOk "k3x9q" "apiKey" [] rfl

/-- C10: setting the display name to the empty string persists the empty
string to local storage, makes every subsequent send a no-op even while the
backend handle and the session identity are available, and the next bootstrap
load treats the stored empty string as absent, generating a fresh default. -/
theorem C10_empty_name (s : AppState) (storage : Storage) (o : SendOutcome)
    (suffix : String) (hdb : s.db = true) (hu : s.userId.isSome = true) :
    (handleUserNameChange s storage "").2 = some ""
    ∧ handleSendMessage (handleUserNameChange s storage "").1 o =
        { state := (handleUserNameChange s storage "").1, writes := [] }
    ∧ loadUserName (handleUserNameChange s storage "").2 suffix = "User-" ++ suffix := by
  refine ⟨rfl, ?_, by simp [handleUserNameChange, loadUserName]⟩
  unfold handleSendMessage
  rw [if_pos]
  right; right; right
  simp [handleUserNameChange, jsTruthy]

/-- Witness for C10 at the concrete sendable state. -/
theorem C10_empty_name_witness :
    (handleUserNameChange sendReadyState none "").2 = some ""
    ∧ handleSendMessage (handleUserNameChange sendReadyState none "").1 .success =
        { state := (handleUserNameChange sendReadyState none "").1, writes := [] }
    ∧ loadUserName (handleUserNameChange sendReadyState none "").2 "k3x9q" = "User-" ++ "k3x9q" :=
  C10_empty_name sendReadyState none .success "k3x9q" rfl rfl

/-- C6: an absent or empty config blob makes bootstrap record the
configuration error and show the full-screen error display directly, and no
state reachable from there by any event is ever ready. -/
theorem C6_config_error (env : Env) (storage : Storage) (suffix : String)
    (s : AppState)
    (hcfg : env.firebaseConfig = none ∨ env.firebaseConfig = some []) :
    (initializeFirebase env storage suffix).1.error =
        some "Failed to initialize Firebase: Firebase config not provided."
    ∧ render (initializeFirebase env storage suffix).1 =
        .errorScreen "Failed to initialize Firebase: Firebase config not provided."
    ∧ (Relation.ReflTransGen Step (initializeFirebase env storage suffix).1 s →
        ¬ ready s) := by
  have h0 : (initializeFirebase env storage suffix).1 =
      { initialState with
          error := some "Failed to initialize Firebase: Firebase config not provided.",
          loading := false } := by
    rcases hcfg with h | h <;> simp [initializeFirebase, h]
  refine ⟨by rw [h0], by rw [h0]; rfl, ?_⟩
  intro hreach hready
  have hsome : s.error.isSome = true :=
    reachable_error_isSome hreach (by rw [h0]; rfl)
  rw [hready.2] at hsome
  simp at hsome

/-- Witness for C6: the empty config blob with the failed-bootstrap state
itself as the reachable state (zero steps). -/
theorem C6_config_error_witness :
    (initializeFirebase { appId := none, firebaseConfig := some [], initialAuthToken := none } none "x").1.error =
        some "Failed to initialize Firebase: Firebase config not provided."
    ∧ render (initializeFirebase { appId := none, firebaseConfig := some [], initialAuthToken := none } none "x").1 =
        .errorScreen "Failed to initialize Firebase: Firebase config not provided."
    ∧ (Relation.ReflTransGen Step
          (initializeFirebase { appId := none, firebaseConfig := some [], initialAuthToken := none } none "x").1
          (initializeFirebase { appId := none, firebaseConfig := some [], initialAuthToken := none } none "x").1 →
        ¬ ready (initializeFirebase { appId := none, firebaseConfig := some [], initialAuthToken := none } none "x").1) :=
  C6_config_error { appId := none, firebaseConfig := some [], initialAuthToken := none }
    none "x" _ (Or.inr rfl)

/-- A concrete message by user u1. -/
def msgA : Message :=
  { id := "a", senderId := "u1", senderName := some "Bob", text := "hi",
    timestamp := some 100 }

/-- A concrete ready state: auth settled, one message rendered. -/
def readyState : AppState :=
  { messages := [msgA], newMessage := "", userId := some "u1",
    userName := some "Bob", db := true, auth := true, loading := false,
    error := none }

/-- C4 counterexample: from a concrete ready state showing the chat view, a
single feed error switches the render to the full-screen error display, so
the already-rendered chat view and its messages do not remain displayed. -/
theorem C4_counterexample :
    ready readyState
    ∧ render readyState =
        .chat [{ align := .right, label := "You", text := "hi" }] (some "u1") "Bob"
    ∧ render (onSnapshotError readyState "boom") =
        .errorScreen "Failed to fetch messages: boom" := by
  exact ⟨⟨rfl, rfl⟩, rfl, rfl⟩

/-- C4, amended: once ready, no sequence of events ever returns the system to
the loading screen (`loading` is never set again along any reachable state),
but a subsequent feed error sets the error state so the full-screen error
display replaces the chat view — and so does a send failure whenever the send
guard passes (a write was actually attempted); in both cases the message list
is retained in state, merely no longer rendered. -/
theorem C4_ready_stability (s s2 : AppState) (msg m : String)
    (h : ready s) (hreach : Relation.ReflTransGen Step s s2) :
    s2.loading = false
    ∧ render (onSnapshotError s msg) =
        .errorScreen ("Failed to fetch messages: " ++ msg)
    ∧ (onSnapshotError s msg).messages = s.messages
    ∧ (¬ (jsTrim s.newMessage = "" ∨ s.db = false ∨ jsTruthy s.userId = false
          ∨ jsTruthy s.userName = false) →
        render (handleSendMessage s (.failure m)).state =
            .errorScreen ("Failed to send message: " ++ m)
        ∧ (handleSendMessage s (.failure m)).state.messages = s.messages) := by
  refine ⟨reachable_loading_false hreach h.1, ?_, rfl, ?_⟩
  · simp [render, onSnapshotError, h.1]
  · intro hg
    have hsend : handleSendMessage s (.failure m) =
        { state := { s with error := some ("Failed to send message: " ++ m) },
          writes := [] } := by
      unfold handleSendMessage
      rw [if_neg hg]
    rw [hsend]
    exact ⟨by simp [render, h.1], rfl⟩

/-- Witness for the amended C4 at the concrete sendable ready state, with a
one-step reachable state (a typing event) and the send guard exercised. -/
theorem C4_ready_stability_witness :
    ({ sendReadyState with newMessage := "t" } : AppState).loading = false
    ∧ render (onSnapshotError sendReadyState "boom") =
        .errorScreen ("Failed to fetch messages: " ++ "boom")
    ∧ (onSnapshotError sendReadyState "boom").messages = sendReadyState.messages
    ∧ (¬ (jsTrim sendReadyState.newMessage = "" ∨ sendReadyState.db = false
          ∨ jsTruthy sendReadyState.userId = false
          ∨ jsTruthy sendReadyState.userName = false) →
        render (handleSendMessage sendReadyState (.failure "net")).state =
            .errorScreen ("Failed to send message: " ++ "net")
        ∧ (handleSendMessage sendReadyState (.failure "net")).state.messages =
            sendReadyState.messages) :=
  C4_ready_stability sendReadyState { sendReadyState with newMessage := "t" }
    "boom" "net" ⟨rfl, rfl⟩
    (Relation.ReflTransGen.single (Step.inputChange sendReadyState "t"))

/-- C8 counterexample: a message from another sender whose `senderName` is
present but empty is labelled with the sender id, not with the (present)
sender name. -/
theorem C8_counterexample :
    renderMessage (some "u1")
        { id := "b", senderId := "u2", senderName := some "", text := "yo",
          timestamp := none }
      = { align := .left, label := "u2", text := "yo" }
    ∧ ¬ ("u2" = "") := by
  exact ⟨rfl, by decide⟩

/-- C8, amended: in the ready state the chat view renders exactly the mapped
message list; a message whose sender id equals the viewer's identity renders
right-aligned and labelled "You"; any other message renders left-aligned,
labelled with its sender name when that is present and non-empty, and with
its sender id when the name is absent or empty. -/
theorem C8_message_render (s : AppState) (uid : String) (m : Message)
    (hl : s.loading = false) (he : s.error = none) (hu : s.userId = some uid)
    (hm : m ∈ s.messages) :
    render s = .chat (s.messages.map (renderMessage (some uid))) (some uid)
        (jsOr s.userName "")
    ∧ renderMessage (some uid) m ∈ s.messages.map (renderMessage (some uid))
    ∧ (m.senderId = uid →
        renderMessage (some uid) m =
          { align := .right, label := "You", text := m.text })
    ∧ (¬ m.senderId = uid →
        (renderMessage (some uid) m).align = .left
        ∧ ((m.senderName = none ∨ m.senderName = some "") →
            (renderMessage (some uid) m).label = m.senderId)
        ∧ (∀ n, m.senderName = some n → ¬ n = "" →
            (renderMessage (some uid) m).label = n)) := by
  refine ⟨?_, List.mem_map_of_mem _ hm, ?_, ?_⟩
  · simp [render, hl, he, hu]
  · intro hid
    simp [renderMessage, hid]
  · intro hid
    refine ⟨?_, ?_, ?_⟩
    · simp [renderMessage, hid]
    · rintro (h | h) <;> simp [renderMessage, hid, jsOr, h]
    · intro n hn hne
      simp [renderMessage, hid, jsOr, hn, hne]

/-- Witness for the amended C8 at the concrete ready state and its own
message. -/
theorem C8_message_render_witness :
    render readyState = .chat (readyState.messages.map (renderMessage (some "u1")))
        (some "u1") (jsOr readyState.userName "")
    ∧ renderMessage (some "u1") msgA ∈ readyState.messages.map (renderMessage (some "u1"))
    ∧ (msgA.senderId = "u1" →
        renderMessage (some "u1") msgA =
          { align := .right, label := "You", text := msgA.text })
    ∧ (¬ msgA.senderId = "u1" →
        (renderMessage (some "u1") msgA).align = .left
        ∧ ((msgA.senderName = none ∨ msgA.senderName = some "") →
            (renderMessage (some "u1") msgA).label = msgA.senderId)
        ∧ (∀ n, msgA.senderName = some n → ¬ n = "" →
            (renderMessage (some "u1") msgA).label = n)) :=
  C8_message_render readyState "u1" msgA rfl rfl rfl (by simp [readyState])

/-- C1 counterexample: a snapshot holding one record with a pre-epoch
(negative milliseconds) timestamp and one record with no timestamp is
published with the timestamped record first, because a missing timestamp is
keyed as 0 rather than as a minimal value. -/
theorem C1_counterexample :
    (onSnapshotOk initialState
        [{ id := "a", senderId := "u1", senderName := none, text := "hi",
           timestamp := some (-1) },
         { id := "b", senderId := "u2", senderName := none, text := "yo",
           timestamp := none }]).messages
      = [{ id := "a", senderId := "u1", senderName := none, text := "hi",
           timestamp := some (-1) },
         { id := "b", senderId := "u2", senderName := none, text := "yo",
           timestamp := none }]
    ∧ ¬ missingTimestampFirst
        (onSnapshotOk initialState
          [{ id := "a", senderId := "u1", senderName := none, text := "hi",
             timestamp := some (-1) },
           { id := "b", senderId := "u2", senderName := none, text := "yo",
             timestamp := none }]).messages := by
  have h : (onSnapshotOk initialState
      [{ id := "a", senderId := "u1", senderName := none, text := "hi",
         timestamp := some (-1) },
       { id := "b", senderId := "u2", senderName := none, text := "yo",
         timestamp := none }]).messages
      = [{ id := "a", senderId := "u1", senderName := none, text := "hi",
           timestamp := some (-1) },
         { id := "b", senderId := "u2", senderName := none, text := "yo",
           timestamp := none }] := by
    simp [onSnapshotOk, sortMessages, sortKey, List.mergeSort, List.splitInTwo,
      List.splitAt, List.splitAt.go, List.merge]
  refine ⟨h, ?_⟩
  rw [h]
  intro hp
  have h1 := (List.pairwise_cons.mp hp).1 _ (List.mem_singleton.mpr rfl)
  simp at h1

/-- Helper: the published snapshot is pairwise sorted by the comparator key. -/
theorem sortMessages_sorted (docs : List Message) : sortedByKey (sortMessages docs) := by
  have h := @List.sorted_mergeSort Message
    (fun a b => decide (sortKey a ≤ sortKey b))
    (fun a b c hab hbc => by
      simp only [decide_eq_true_eq] at *
      exact le_trans hab hbc)
    (fun a b => by
      simp only [Bool.or_eq_true, decide_eq_true_eq]
      exact le_total _ _)
    docs
  exact h.imp (fun hab => of_decide_eq_true hab)

/-- C1, amended: every published snapshot is sorted ascending by the key
`timestamp` in milliseconds with a missing timestamp keyed as 0; hence every
record lacking a timestamp is ordered before all records carrying a positive
timestamp (records with zero or negative timestamps may precede it). -/
theorem C1_snapshot_sorted (s : AppState) (docs : List Message) :
    sortedByKey (onSnapshotOk s docs).messages
    ∧ List.Pairwise (fun a b => 0 < sortKey a → b.timestamp.isSome = true)
        (onSnapshotOk s docs).messages := by
  have hs : sortedByKey (onSnapshotOk s docs).messages := sortMessages_sorted docs
  refine ⟨hs, hs.imp ?_⟩
  intro a b hab hpos
  cases htb : b.timestamp with
  | some t => rfl
  | none =>
      exfalso
      have hb : sortKey b = 0 := by simp [sortKey, htb]
      rw [hb] at hab
      omega
